import Mathlib

/-
Verification development for the Rufus e-commerce agent backend.

The repository contains two iterations of the same FastAPI service:
a prototype (src/backend/main.py, src/backend/utils.py) and a refined
version (src/test/main.py, src/test/utils.py, src/test/config.py,
src/test/schema.py).  The definitions below are shallow embeddings of the
Python functions of those files; each definition's doc comment names the
file and function it embeds.  Python strings are embedded as lists of
characters (`Str`), Python `None`-able values as `Option`, raised
exceptions as `Except`/`Option` results, and in-place mutation of the
session dictionary as explicit state passing.
-/

namespace CommerceAgent

/-- Python strings are modelled as lists of characters. -/
abbrev Str := List Char

/-- Characters removed by Python str.strip() with no argument. -/
def pyIsSpace (c : Char) : Bool :=
  c = ' ' || c = '\t' || c = '\n' || c = '\r' || c = '\x0b' || c = '\x0c'

/-- Python str.strip(): drop leading and trailing whitespace. -/
def pyStrip (s : Str) : Str :=
  ((s.dropWhile pyIsSpace).reverse.dropWhile pyIsSpace).reverse

/-- Python str.upper() (the strings compared in the source are ASCII). -/
def pyUpper (s : Str) : Str := s.map Char.toUpper

/-- Python str.split(<comma>): splitting on a single comma; on the empty
string it yields one empty field, exactly like Python. -/
def pySplitComma : Str → List Str
  | [] => [[]]
  | c :: rest =>
      match pySplitComma rest with
      | [] => [[c]]
      | t :: ts => if c = ',' then [] :: t :: ts else (c :: t) :: ts

/-- The Product record of src/test/schema.py and src/backend/main.py
(pydantic BaseModel with seven required fields).  The numeric value of
price plays no role in any claim; it is carried as an integer. -/
structure Product where
  id : Str
  name : Str
  description : Str
  price : Int
  image_url : Str
  category : Str
  tags : List Str
deriving DecidableEq, Repr

/-- One raw record of products.json as the loader hands it to the rest of
the system: a dictionary whose keys may be absent.  An absent field is
`none`; `Product(**product_data)` (pydantic validation) succeeds exactly
when every required field is present. -/
structure ProductData where
  id : Option Str
  name : Option Str
  description : Option Str
  price : Option Int
  image_url : Option Str
  category : Option Str
  tags : Option (List Str)
deriving DecidableEq, Repr

/-- Python `Product(**product_data)`: pydantic materialization of a raw
record, which raises ValidationError (here: `none`) when a required field
is missing or malformed. -/
def materializeProduct (d : ProductData) : Option Product :=
  match d.id, d.name, d.description, d.price, d.image_url, d.category, d.tags with
  | some i, some n, some de, some pr, some iu, some ca, some t =>
      some ⟨i, n, de, pr, iu, ca, t⟩
  | _, _, _, _, _, _, _ => none

/-- Python `next((p for p in products_db if p.get("id") == prod_id), None)`
(src/backend/utils.py line 81): first record whose id key equals the
identifier. -/
def lookupProduct (products_db : List ProductData) (prod_id : Str) : Option ProductData :=
  products_db.find? (fun p => p.id == some prod_id)

/-- Python list comprehension
`[id_str.strip() for id_str in llm_response_text.split(",") if id_str.strip()]`
(src/backend/utils.py lines 66-67): split on commas, trim each token,
discard empty tokens. -/
def tokenizeIds (s : Str) : List Str :=
  ((pySplitComma s).map pyStrip).filter (fun t => !t.isEmpty)

/-- One iteration of the fetch loop of src/backend/utils.py lines 78-92:
the accumulator carries the materialized products so far and the
`found_product_data_for_any_id` flag.  A catalog hit sets the flag even
when pydantic materialization fails (the failure is only logged); a miss
leaves the accumulator unchanged. -/
def fetchStep (products_db : List ProductData) (acc : List Product × Bool) (prod_id : Str) :
    List Product × Bool :=
  match lookupProduct products_db prod_id with
  | some product_data =>
      match materializeProduct product_data with
      | some prod => (acc.1 ++ [prod], true)
      | none => (acc.1, true)
  | none => acc

/-- Resolution of a single identifier: catalog lookup followed by pydantic
materialization. -/
def fetchOne (products_db : List ProductData) (prod_id : Str) : Option Product :=
  (lookupProduct products_db prod_id).bind materializeProduct

/-- Classification of the fetch loop's result, src/backend/utils.py
lines 94-101: RESOLVED when some product materialized, the
found-but-unprocessable PARTIAL when the flag is set, the not-found
PARTIAL otherwise. -/
def fetchOutcome (r : List Product × Bool) : List Product × String :=
  if r.1 ≠ [] then
    (r.1, " here are some recommendations:")
  else if r.2 then
    (r.1, " I found some potential matches but couldn\x27t fully process their details...")
  else
    (r.1, " I looked for those product IDs but couldn\x27t find them in our records...")

/-- The recommendation parser `parse_llm_product_ids_and_fetch` of
src/backend/utils.py lines 44-101, embedded branch for branch:
sentinel/empty test (line 63), tokenization (lines 66-69), the fetch loop
(lines 78-92) and the classification of the outcome with its status
message segment (lines 94-101). -/
def parse_llm_product_ids_and_fetch (llm_response_text : Str) (products_db : List ProductData) :
    List Product × String :=
  if llm_response_text = [] ∨ pyUpper (pyStrip llm_response_text) = ("NOMATCH".data) then
    ([], " I couldn\x27t find specific products matching that description in our current selection...")
  else if tokenizeIds llm_response_text = [] then
    ([], " I wasn\x27t able to pinpoint specific recommendations from the response received...")
  else
    fetchOutcome ((tokenizeIds llm_response_text).foldl (fetchStep products_db) ([], false))

/-- The Recommendation Parser component as the endpoints use it: both
callers strip the raw LLM reply before handing it to the parse function
(`llm_response_text = response.text.strip()`,
src/backend/utils.py line 126 inside `_get_recommendations_from_llm`,
likewise src/backend/main.py line 187 and src/test/main.py line 182). -/
def resolve_llm_recommendations (raw_llm_text : Str) (products_db : List ProductData) :
    List Product × String :=
  parse_llm_product_ids_and_fetch (pyStrip raw_llm_text) products_db

/-- One iteration of the fetch loop of src/test/utils.py lines 65-72: in
this variant `found_details_for_any_id` is set only after a successful
materialization, so a validation failure leaves the accumulator as it
was. -/
def test_fetchStep (products_db : List ProductData) (acc : List Product × Bool)
    (prod_id : Str) : List Product × Bool :=
  match lookupProduct products_db prod_id with
  | some product_data =>
      match materializeProduct product_data with
      | some prod => (acc.1 ++ [prod], true)
      | none => acc
  | none => acc

/-- Classification of src/test/utils.py lines 74-79; its not-found
fragment differs from the backend variant's. -/
def test_fetchOutcome (r : List Product × Bool) : List Product × String :=
  if r.1 ≠ [] then
    (r.1, " here are some recommendations:")
  else if r.2 then
    (r.1, " I found some potential matches but couldn\x27t fully process their details...")
  else
    (r.1, " I looked for those product IDs but couldn\x27t find them or their details in our records...")

/-- parse_llm_product_ids_and_fetch of src/test/utils.py lines 49-83.
It differs from the backend variant embedded above: the sentinel
comparison does not strip first, the found flag follows successful
materializations only, and the not-found fragment reads differently. -/
def test_parse_llm_product_ids_and_fetch (llm_response_text : Str)
    (products_db : List ProductData) : List Product × String :=
  if llm_response_text = [] ∨ pyUpper llm_response_text = ("NOMATCH".data) then
    ([], " I couldn\x27t find specific products matching that description in our current selection...")
  else if tokenizeIds llm_response_text = [] then
    ([], " I wasn\x27t able to pinpoint specific recommendations from the response received...")
  else
    test_fetchOutcome ((tokenizeIds llm_response_text).foldl (test_fetchStep products_db) ([], false))

/-- One formatted line of format_products_for_llm, src/test/utils.py
lines 42-46: absent id/name/description fall back to the `N/A`
placeholder (`p.get(..., "N/A")`); tags default to the empty list
(`p.get("tags", [])`) and are comma-joined. -/
def productLine (p : ProductData) : Str :=
  ("ID: ".data) ++ (p.id.getD ("N/A".data)) ++ (", Name: ".data) ++
    (p.name.getD ("N/A".data)) ++ (", Description: ".data) ++
    (p.description.getD ("N/A".data)) ++ (", Tags: ".data) ++
    (List.intercalate (", ".data) (p.tags.getD []))

/-- The sample selection of src/test/utils.py lines 36-38: the slice
`products_db[:size]` is taken only when a cap is supplied and is smaller
than the catalog; otherwise the whole catalog. -/
def sampleProducts (products_db : List ProductData) : Option Nat → List ProductData
  | some k => if k < products_db.length then products_db.take k else products_db
  | none => products_db

/-- format_products_for_llm of src/test/utils.py lines 28-47: empty
catalog sentence, optional earliest-first cap, one line per sampled
product, lines joined by single newlines (so no trailing newline). -/
def format_products_for_llm (products_db : List ProductData)
    (products_sample_size : Option Nat) : Str :=
  if products_db = [] then
    ("No product information available.".data)
  else
    List.intercalate ("\n".data)
      ((sampleProducts products_db products_sample_size).map productLine)

/-- What opening and json-parsing products.json can come to: the parsed
record list, or one of the exceptions the loader's three except clauses
catch. -/
inductive LoadFailure where
  | fileNotFound
  | jsonDecodeError
  | otherError
deriving DecidableEq, Repr

/-- Result of the underlying `open` + `json.load` I/O. -/
abbrev LoadOutcome := Except LoadFailure (List ProductData)

/-- load_products_from_file of src/test/utils.py lines 11-26 (the same
function, with an explicit path argument, is src/backend/utils.py lines
11-26): each of the three except clauses — FileNotFoundError,
json.JSONDecodeError, bare Exception — logs and returns the empty list,
so no failure escapes the loader and startup continues. -/
def load_products_from_file : LoadOutcome → List ProductData
  | .ok products => products
  | .error .fileNotFound => []
  | .error .jsonDecodeError => []
  | .error .otherError => []

/-- The conversation handle returned by `client.aio.chats.create(...)`:
the registry stores it and every send_message appends a turn.  Replies
are a deterministic function of the turns sent (the Gateway below), so
recording the sent turns captures the handle's state. -/
structure ChatSession where
  history : List Str
deriving DecidableEq, Repr

/-- The LLM Gateway boundary for conversational turns: from the turns
sent so far it either produces the next reply or raises. -/
abbrev Gateway := List Str → Except Unit Str

/-- The in-memory session store SESSION_CHATS (src/backend/main.py line
44) / app.state.session_chats (src/test/main.py line 38), as an ordered
key-value list with unique keys. -/
abbrev Registry := List (String × ChatSession)

/-- Python dict read `session_chats.get(session_id)` (absent key gives
None, hence a falsy chat object). -/
def dictGet : Registry → String → Option ChatSession
  | [], _ => none
  | e :: rest, k => if e.1 = k then some e.2 else dictGet rest k

/-- Python dict write `session_chats[session_id] = chat`. -/
def dictSet : Registry → String → ChatSession → Registry
  | [], k, v => [(k, v)]
  | e :: rest, k, v => if e.1 = k then (k, v) :: rest else e :: dictSet rest k v

/-- RUFUS_BASE_PERSONA_PROMPT_TEMPLATE, src/backend/main.py lines 83-96
(identically settings.rufus_persona_template, src/test/config.py lines
30-43): the template text before the user_profile_details slot. -/
def personaHead : Str :=
  ("You are CommerceAgent, a friendly and helpful shopping assistant for an e-commerce website.\nYour name is Rufus.\nYou are currently assisting a user with the following profile: ".data)

/-- The persona template text after the user_profile_details slot. -/
def personaTail : Str :=
  (".\n\nYour primary functions are:\n1.  General Conversation: Engage in friendly chat and answer general inquiries based on the product descriptions.\n2.  Text-Based Product Recommendations: Help users find products from the product database based on their textual descriptions.\n3.  Image-Based Product Search: Help users find products from the product database similar to an image they provide.\n\nWhen a user asks what you can do, clearly state these three capabilities.\nAlways respond conversationally.\nMaintain context from previous messages.\nStart the conversation by introducing yourself and asking how I (the user) can be helped. This should be your very first response.\n".data)

/-- Python str.format substituting user_profile_details into the persona
template. -/
def renderPersona (user_profile_details : Str) : Str :=
  personaHead ++ user_profile_details ++ personaTail

/-- Python `", ".join(f"{k}: {v}" for k, v in mapping.items())`; dicts
iterate in insertion order, so the mapping is an ordered pair list. -/
def joinKV (mapping : List (Str × Str)) : Str :=
  List.intercalate (", ".data) (mapping.map (fun kv => kv.1 ++ (": ".data) ++ kv.2))

/-- src/backend/main.py line 118: the joined mapping when
`payload.user_info` is truthy, the literal `not specified` when it is
None or the empty dict. -/
def backend_user_profile_str (user_info : Option (List (Str × Str))) : Str :=
  match user_info with
  | some (kv :: rest) => joinKV (kv :: rest)
  | some [] => ("not specified".data)
  | none => ("not specified".data)

/-- settings.default_user_profile, src/test/config.py line 22. -/
def default_user_profile : List (Str × Str) :=
  [(("profile".data), ("valued customer".data))]

/-- src/test/main.py lines 108-109: None falls back to the default
profile; the mapping, possibly empty, is then joined unconditionally. -/
def test_user_profile_str (user_info : Option (List (Str × Str))) : Str :=
  joinKV (match user_info with | some m => m | none => default_user_profile)

/-- The single first turn backend start_session issues: the persona
rendered with its profile descriptor (src/backend/main.py lines 118-127). -/
def backend_session_prompt (user_info : Option (List (Str × Str))) : Str :=
  renderPersona (backend_user_profile_str user_info)

/-- The single first turn the refined start_session issues
(src/test/main.py lines 108-119). -/
def test_session_prompt (user_info : Option (List (Str × Str))) : Str :=
  renderPersona (test_user_profile_str user_info)

/-- start_session of src/backend/main.py lines 104-135: render the
persona prompt, send it as the first turn, and store the conversation
handle under the fresh id only after the greeting arrived; any failure
raised by the LLM call maps to HTTP 500 with the registry untouched.
The fresh uuid4 identifier is passed in as `session_id`. -/
def backend_start_session (gw : Gateway) (session_chats : Registry) (session_id : String)
    (user_info : Option (List (Str × Str))) : Registry × Except Nat (String × Str) :=
  match gw [backend_session_prompt user_info] with
  | .ok greeting =>
      (dictSet session_chats session_id ⟨[backend_session_prompt user_info]⟩,
       .ok (session_id, greeting))
  | .error _ => (session_chats, .error 500)

/-- start_session of src/test/main.py lines 96-127: the same storage
discipline as the backend variant with the refined profile rendering. -/
def test_start_session (gw : Gateway) (session_chats : Registry) (session_id : String)
    (user_info : Option (List (Str × Str))) : Registry × Except Nat (String × Str) :=
  match gw [test_session_prompt user_info] with
  | .ok greeting =>
      (dictSet session_chats session_id ⟨[test_session_prompt user_info]⟩,
       .ok (session_id, greeting))
  | .error _ => (session_chats, .error 500)

/-- chat_with_agent of src/test/main.py lines 130-148 (equivalently
src/backend/main.py lines 137-149): an unknown session id raises HTTP 404
with the registry untouched; otherwise the message is forwarded to the
stored handle, whose turn history grows, and the gateway's reply is
returned; a failing gateway call maps to HTTP 500. -/
def chat_with_agent (gw : Gateway) (session_chats : Registry) (session_id : String)
    (message : Str) : Registry × Except Nat Str :=
  match dictGet session_chats session_id with
  | none => (session_chats, .error 404)
  | some chat_session =>
      match gw (chat_session.history ++ [message]) with
      | .ok reply =>
          (dictSet session_chats session_id ⟨chat_session.history ++ [message]⟩, .ok reply)
      | .error _ => (session_chats, .error 500)

/-- settings.text_recommendation_prompt_template, src/test/config.py
lines 45-54: the template text before the user_query slot. -/
def recoPromptHead : Str :=
  ("You are a product recommendation engine for an e-commerce site.\nUser query: \"".data)

/-- The template text between the user_query and product_context slots. -/
def recoPromptMid : Str :=
  ("\"\nAvailable products (summary - use ONLY these for recommendations):\n".data)

/-- The template text after the product_context slot. -/
def recoPromptTail : Str :=
  ("\n\nBased *only* on the user query and the provided product list, identify up to 3 relevant product IDs that best match the user\x27s query.\nIf no products from the list are a good match, respond with \"NOMATCH\".\nOtherwise, return only a comma-separated list of product IDs (e.g., \"prod101,prod205\").\nDo not add any other text or explanation. Your response must be ONLY the IDs or NOMATCH.\n".data)

/-- The one-shot Gateway capability used by the recommendation endpoint:
`client.models.generate_content` on a single prompt. -/
abbrev OneShotGateway := Str → Except Unit Str

/-- The full recommendation prompt (src/test/main.py lines 168-173): the
template with the user query and the whole formatted catalog substituted
(the cap is passed as len(products_db)). -/
def test_reco_prompt (products_db : List ProductData) (user_query : Str) : Str :=
  recoPromptHead ++ user_query ++ recoPromptMid ++
    format_products_for_llm products_db (some products_db.length) ++ recoPromptTail

/-- recommend_text_products of src/test/main.py lines 151-193.  The first
component is the endpoint outcome (an HTTP error status, or the 200 body:
recommendations plus the Rufus message); the second is the trace of
prompts submitted to the LLM Gateway.  An empty catalog short-circuits
to the apology before any gateway call; otherwise the stripped reply goes
through the recommendation parser and a raised gateway error maps to
HTTP 500. -/
def recommend_text_products (gw : OneShotGateway) (products_db : List ProductData)
    (user_query : Str) : Except Nat (List Product × Str) × List Str :=
  if products_db = [] then
    (.ok ([], ("Rufus: I\x27m sorry, but our product catalog seems to be empty at the moment.".data)), [])
  else
    match gw (test_reco_prompt products_db user_query) with
    | .error _ => (.error 500, [test_reco_prompt products_db user_query])
    | .ok response_text =>
        (.ok ((test_parse_llm_product_ids_and_fetch (pyStrip response_text) products_db).1,
           ("Rufus: Okay, for your query \x27".data) ++ user_query ++
             ("\x27, I\x27ve looked through our products.".data) ++
             (test_parse_llm_product_ids_and_fetch (pyStrip response_text) products_db).2.data),
         [test_reco_prompt products_db user_query])

/-- A fully-populated demo catalog record with identifier p1. -/
def demo_p1 : ProductData :=
  ⟨some ("p1".data), some ("Red Shirt".data), some ("A red cotton shirt".data), some 12,
   some ("img1.png".data), some ("apparel".data), some [("red".data), ("shirt".data)]⟩

/-- A fully-populated demo catalog record with identifier p2. -/
def demo_p2 : ProductData :=
  ⟨some ("p2".data), some ("Blue Mug".data), some ("A blue ceramic mug".data), some 7,
   some ("img2.png".data), some ("kitchen".data), some [("blue".data)]⟩

/-- A demo catalog holding p1 then p2. -/
def demoCatalog : List ProductData := [demo_p1, demo_p2]

/-- A record that is found under identifier p1 but fails pydantic
materialization: its required name field is missing. -/
def brokenRecord : ProductData :=
  ⟨some ("p1".data), none, some ("desc".data), some 5, some ("img".data),
   some ("misc".data), some []⟩

/-- A fully-populated catalog record whose identifier is the literal
sentinel string NOMATCH. -/
def nomatchRecord : ProductData :=
  ⟨some ("NOMATCH".data), some ("Sentinel Shirt".data), some ("A shirt".data), some 10,
   some ("img3.png".data), some ("apparel".data), some [("red".data)]⟩

/-- A demo conversational gateway: it greets on the first turn and
acknowledges afterwards, and never fails. -/
def gwDemo : Gateway :=
  fun turns => if turns.length = 1 then .ok ("hello!".data) else .ok ("sure.".data)

/-- A demo gateway whose calls always raise. -/
def gwFail : Gateway := fun _ => .error ()

/-- Closed form of the fetch loop: the product list collects, in order,
the materializations of the identifiers that resolve, and the flag records
whether any identifier was found in the catalog. -/
theorem foldl_fetchStep (products_db : List ProductData) (ids : List Str)
    (l : List Product) (b : Bool) :
    ids.foldl (fetchStep products_db) (l, b) =
      (l ++ ids.filterMap (fetchOne products_db),
       b || ids.any (fun i => (lookupProduct products_db i).isSome)) := by
  induction ids generalizing l b with
  | nil => simp
  | cons i rest ih =>
      simp only [List.foldl_cons, List.filterMap_cons, List.any_cons]
      cases hl : lookupProduct products_db i with
      | none =>
          simp [fetchStep, fetchOne, hl, ih l b]
      | some d =>
          cases hm : materializeProduct d with
          | none =>
              simp [fetchStep, fetchOne, hl, hm, ih l true]
          | some p =>
              simp [fetchStep, fetchOne, hl, hm, ih (l ++ [p]) true]

/-- If every element maps to `some`, `filterMap` keeps the length. -/
theorem length_filterMap_of_all_isSome {α β : Type} (f : α → Option β) (l : List α)
    (h : ∀ a ∈ l, (f a).isSome = true) : (l.filterMap f).length = l.length := by
  induction l with
  | nil => rfl
  | cons a t ih =>
      cases hfa : f a with
      | none =>
          have := h a (by simp)
          rw [hfa] at this
          simp at this
      | some b =>
          simp only [List.filterMap_cons, hfa, List.length_cons]
          rw [ih (fun x hx => h x (by simp [hx]))]

/-- The head of a dropWhile result never satisfies the dropped predicate. -/
theorem head?_dropWhile_false (p : Char → Bool) (l : Str) :
    ∀ c, (l.dropWhile p).head? = some c → p c = false := by
  induction l with
  | nil => intro c h; simp at h
  | cons a t ih =>
      intro c h
      by_cases hp : p a
      · rw [List.dropWhile_cons_of_pos hp] at h
        exact ih c h
      · rw [List.dropWhile_cons_of_neg hp] at h
        simp only [List.head?_cons, Option.some.injEq] at h
        subst h
        simpa using hp

/-- dropWhile is the identity when the head already fails the predicate. -/
theorem dropWhile_eq_self_of_head? (p : Char → Bool) (l : Str)
    (h : ∀ c, l.head? = some c → p c = false) : l.dropWhile p = l := by
  cases l with
  | nil => rfl
  | cons a t => simp [List.dropWhile_cons, h a rfl]

/-- When dropWhile leaves something, it leaves the original last element. -/
theorem getLast?_dropWhile (p : Char → Bool) (l : Str) (h : l.dropWhile p ≠ []) :
    (l.dropWhile p).getLast? = l.getLast? := by
  induction l with
  | nil => simp at h
  | cons a t ih =>
      by_cases hp : p a
      · rw [List.dropWhile_cons_of_pos hp]
        have h' : t.dropWhile p ≠ [] := by
          rw [List.dropWhile_cons_of_pos hp] at h
          exact h
        rw [ih h']
        have ht : t ≠ [] := by
          intro e
          exact h' (by simp [e])
        cases t with
        | nil => exact absurd rfl ht
        | cons b u => rw [List.getLast?_cons_cons]
      · rw [List.dropWhile_cons_of_neg hp]

/-- The first character of a stripped string is not whitespace. -/
theorem pyStrip_head?_false (s : Str) :
    ∀ c, (pyStrip s).head? = some c → pyIsSpace c = false := by
  intro c hc
  unfold pyStrip at hc
  rw [List.head?_reverse] at hc
  have hwne : ((s.dropWhile pyIsSpace).reverse.dropWhile pyIsSpace) ≠ [] := by
    intro e
    rw [e] at hc
    simp at hc
  rw [getLast?_dropWhile _ _ hwne, List.getLast?_reverse] at hc
  exact head?_dropWhile_false pyIsSpace s c hc

/-- The last character of a stripped string is not whitespace. -/
theorem pyStrip_getLast?_false (s : Str) :
    ∀ c, (pyStrip s).getLast? = some c → pyIsSpace c = false := by
  intro c hc
  unfold pyStrip at hc
  rw [List.getLast?_reverse] at hc
  exact head?_dropWhile_false _ _ c hc

/-- Python str.strip() is idempotent. -/
theorem pyStrip_idem (s : Str) : pyStrip (pyStrip s) = pyStrip s := by
  have h1 : (pyStrip s).dropWhile pyIsSpace = pyStrip s :=
    dropWhile_eq_self_of_head? _ _ (pyStrip_head?_false s)
  have h2 : ((pyStrip s).reverse).dropWhile pyIsSpace = (pyStrip s).reverse := by
    apply dropWhile_eq_self_of_head?
    intro c hc
    rw [List.head?_reverse] at hc
    exact pyStrip_getLast?_false s c hc
  show (((pyStrip s).dropWhile pyIsSpace).reverse.dropWhile pyIsSpace).reverse = pyStrip s
  rw [h1, h2, List.reverse_reverse]

/-- Stripping a whitespace-only string yields the empty string. -/
theorem pyStrip_eq_nil_of_space (s : Str) (h : ∀ c ∈ s, pyIsSpace c = true) :
    pyStrip s = [] := by
  unfold pyStrip
  rw [List.dropWhile_eq_nil_iff.mpr h]
  simp

/-- When neither early return fires, the parser's answer is the outcome
classification of the resolved identifier list. -/
theorem parse_loop_spec (llm_text : Str) (products_db : List ProductData)
    (hcond : ¬ (llm_text = [] ∨ pyUpper (pyStrip llm_text) = ("NOMATCH".data)))
    (hids : tokenizeIds llm_text ≠ []) :
    parse_llm_product_ids_and_fetch llm_text products_db =
      fetchOutcome ((tokenizeIds llm_text).filterMap (fetchOne products_db),
        (tokenizeIds llm_text).any (fun i => (lookupProduct products_db i).isSome)) := by
  unfold parse_llm_product_ids_and_fetch
  rw [if_neg hcond, if_neg hids, foldl_fetchStep]
  simp

/-- Reading back a key just written into the session dict yields the
written handle. -/
theorem dictGet_dictSet (session_chats : Registry) (k : String) (v : ChatSession) :
    dictGet (dictSet session_chats k v) k = some v := by
  induction session_chats with
  | nil => simp [dictSet, dictGet]
  | cons e rest ih =>
      by_cases h : e.1 = k
      · simp [dictSet, dictGet, h]
      · simp [dictSet, dictGet, h, ih]

/-- C1 (confirmed): for every catalog and every raw LLM reply that is
empty, whitespace-only, or case-insensitively equal to the sentinel
NOMATCH after trimming, the Recommendation Parser — the reply is stripped
by the caller and handed to parse_llm_product_ids_and_fetch — returns the
empty product list together with the fixed NO_MATCH status fragment. -/
theorem claim1_sentinel_no_match (products_db : List ProductData) (raw_llm_text : Str)
    (h : raw_llm_text = [] ∨ (∀ c ∈ raw_llm_text, pyIsSpace c = true) ∨
         pyUpper (pyStrip raw_llm_text) = ("NOMATCH".data)) :
    resolve_llm_recommendations raw_llm_text products_db =
      ([], " I couldn\x27t find specific products matching that description in our current selection...") := by
  unfold resolve_llm_recommendations parse_llm_product_ids_and_fetch
  rcases h with h | h | h
  · subst h
    rw [if_pos (Or.inl (by decide))]
  · rw [pyStrip_eq_nil_of_space raw_llm_text h]
    rw [if_pos (Or.inl rfl)]
  · rw [if_pos (Or.inr (by rw [pyStrip_idem]; exact h))]

/-- C1: witness evaluating the theorem on a sentinel reply surrounded by
whitespace at the empty catalog. -/
theorem claim1_sentinel_no_match_witness :
    resolve_llm_recommendations (" nomatch  ".data) [] =
      ([], " I couldn\x27t find specific products matching that description in our current selection...") :=
  claim1_sentinel_no_match [] (" nomatch  ".data) (Or.inr (Or.inr (by decide)))

/-- C2 counterexample: the claim quantifies over every identifier string
whose identifiers all exist in the catalog, but the sentinel test runs
first, so the identifier string NOMATCH returns zero products against a
catalog that contains a materializable record with that very identifier;
and the identifier string consisting of one bare comma has no identifier
occurrences at all, so it vacuously satisfies the premise yet its status
fragment is not the RESOLVED one. -/
theorem claim2_resolved_counterexample :
    tokenizeIds ("NOMATCH".data) = [("NOMATCH".data)] ∧
    (fetchOne [nomatchRecord] ("NOMATCH".data)).isSome = true ∧
    (parse_llm_product_ids_and_fetch ("NOMATCH".data) [nomatchRecord]).1 = [] ∧
    (parse_llm_product_ids_and_fetch (",".data) []).1 = [] ∧
    (parse_llm_product_ids_and_fetch (",".data) []).2 ≠ " here are some recommendations:" := by
  exact ⟨by decide, by decide, by decide, by decide, by decide⟩

/-- C2 (corrected): for every non-empty identifier string that is not the
trimmed case-insensitive sentinel and yields at least one identifier
occurrence, if every occurrence resolves (catalog hit plus successful
materialization), the parser returns exactly one Product per occurrence,
in the order the occurrences appear in the LLM text, with the RESOLVED
fragment. -/
theorem claim2_amended_resolved_in_order (llm_text : Str) (products_db : List ProductData)
    (hne : llm_text ≠ [])
    (hsent : pyUpper (pyStrip llm_text) ≠ ("NOMATCH".data))
    (hids : tokenizeIds llm_text ≠ [])
    (hall : ∀ i ∈ tokenizeIds llm_text, (fetchOne products_db i).isSome = true) :
    (parse_llm_product_ids_and_fetch llm_text products_db).1 =
        (tokenizeIds llm_text).filterMap (fetchOne products_db) ∧
    (parse_llm_product_ids_and_fetch llm_text products_db).1.length =
        (tokenizeIds llm_text).length ∧
    (parse_llm_product_ids_and_fetch llm_text products_db).2 =
        " here are some recommendations:" := by
  have hcond : ¬ (llm_text = [] ∨ pyUpper (pyStrip llm_text) = ("NOMATCH".data)) := by
    rintro (h | h)
    · exact hne h
    · exact hsent h
  have hlen : ((tokenizeIds llm_text).filterMap (fetchOne products_db)).length =
      (tokenizeIds llm_text).length := length_filterMap_of_all_isSome _ _ hall
  have hfm : (tokenizeIds llm_text).filterMap (fetchOne products_db) ≠ [] := by
    intro e
    rw [e] at hlen
    exact hids (List.length_eq_zero.mp hlen.symm)
  rw [parse_loop_spec llm_text products_db hcond hids]
  unfold fetchOutcome
  simp [hfm, hlen]

/-- C2: witness running the amended theorem on the reply p2,p1 against
the demo catalog ordered p1 then p2, so the result follows the reply's
order, not the catalog's. -/
theorem claim2_amended_resolved_in_order_witness :
    (parse_llm_product_ids_and_fetch ("p2,p1".data) demoCatalog).1 =
        (tokenizeIds ("p2,p1".data)).filterMap (fetchOne demoCatalog) ∧
    (parse_llm_product_ids_and_fetch ("p2,p1".data) demoCatalog).1.length =
        (tokenizeIds ("p2,p1".data)).length ∧
    (parse_llm_product_ids_and_fetch ("p2,p1".data) demoCatalog).2 =
        " here are some recommendations:" :=
  claim2_amended_resolved_in_order ("p2,p1".data) demoCatalog (by decide) (by decide)
    (by decide) (by decide)

/-- C3 (confirmed): once a non-empty identifier list is parsed (the text
is neither empty nor the trimmed sentinel and tokenization is non-empty),
the parser — a total function, so lookup misses cannot raise — returns
the resolved products in order, and its status fragment is exactly: the
RESOLVED one when some product materialized; the found-but-unprocessable
PARTIAL one when none did but some identifier was found in the catalog;
the not-found PARTIAL one otherwise. -/
theorem claim3_outcome_classification (llm_text : Str) (products_db : List ProductData)
    (hne : llm_text ≠ [])
    (hsent : pyUpper (pyStrip llm_text) ≠ ("NOMATCH".data))
    (hids : tokenizeIds llm_text ≠ []) :
    (parse_llm_product_ids_and_fetch llm_text products_db).1 =
        (tokenizeIds llm_text).filterMap (fetchOne products_db) ∧
    ((tokenizeIds llm_text).filterMap (fetchOne products_db) ≠ [] →
      (parse_llm_product_ids_and_fetch llm_text products_db).2 =
        " here are some recommendations:") ∧
    ((tokenizeIds llm_text).filterMap (fetchOne products_db) = [] →
      (tokenizeIds llm_text).any (fun i => (lookupProduct products_db i).isSome) = true →
      (parse_llm_product_ids_and_fetch llm_text products_db).2 =
        " I found some potential matches but couldn\x27t fully process their details...") ∧
    ((tokenizeIds llm_text).filterMap (fetchOne products_db) = [] →
      (tokenizeIds llm_text).any (fun i => (lookupProduct products_db i).isSome) = false →
      (parse_llm_product_ids_and_fetch llm_text products_db).2 =
        " I looked for those product IDs but couldn\x27t find them in our records...") := by
  have hcond : ¬ (llm_text = [] ∨ pyUpper (pyStrip llm_text) = ("NOMATCH".data)) := by
    rintro (h | h)
    · exact hne h
    · exact hsent h
  rw [parse_loop_spec llm_text products_db hcond hids]
  unfold fetchOutcome
  refine ⟨?_, ?_, ?_, ?_⟩
  · by_cases h1 : (tokenizeIds llm_text).filterMap (fetchOne products_db) = [] <;>
      by_cases h2 :
        (tokenizeIds llm_text).any (fun i => (lookupProduct products_db i).isSome) = true <;>
      simp [h1, h2]
  · intro h1
    simp [h1]
  · intro h1 h2
    simp [h1, h2]
  · intro h1 h2
    simp [h1, h2]

/-- C3: witness exercising the found-but-unprocessable branch on a
catalog whose only record carries identifier p1 but no name field. -/
theorem claim3_outcome_classification_witness :
    (parse_llm_product_ids_and_fetch ("p1".data) [brokenRecord]).1 = [] ∧
    (parse_llm_product_ids_and_fetch ("p1".data) [brokenRecord]).2 =
      " I found some potential matches but couldn\x27t fully process their details..." := by
  refine ⟨by decide, ?_⟩
  exact (claim3_outcome_classification ("p1".data) [brokenRecord] (by decide) (by decide)
    (by decide)).2.2.1 (by decide) (by decide)

/-- C4 (confirmed): the parser caps nothing and deduplicates nothing —
whenever every identifier occurrence of the parsed list resolves, the
returned product list has exactly one entry per occurrence, repeats
included, in the order of appearance. -/
theorem claim4_no_cap_no_dedup (llm_text : Str) (products_db : List ProductData)
    (hne : llm_text ≠ [])
    (hsent : pyUpper (pyStrip llm_text) ≠ ("NOMATCH".data))
    (hall : ∀ i ∈ tokenizeIds llm_text, (fetchOne products_db i).isSome = true) :
    (parse_llm_product_ids_and_fetch llm_text products_db).1 =
        (tokenizeIds llm_text).filterMap (fetchOne products_db) ∧
    (parse_llm_product_ids_and_fetch llm_text products_db).1.length =
        (tokenizeIds llm_text).length := by
  have hcond : ¬ (llm_text = [] ∨ pyUpper (pyStrip llm_text) = ("NOMATCH".data)) := by
    rintro (h | h)
    · exact hne h
    · exact hsent h
  have hlen : ((tokenizeIds llm_text).filterMap (fetchOne products_db)).length =
      (tokenizeIds llm_text).length := length_filterMap_of_all_isSome _ _ hall
  by_cases hids : tokenizeIds llm_text = []
  · unfold parse_llm_product_ids_and_fetch
    rw [if_neg hcond, if_pos hids, hids]
    simp
  · have hfm : (tokenizeIds llm_text).filterMap (fetchOne products_db) ≠ [] := by
      intro e
      rw [e] at hlen
      exact hids (List.length_eq_zero.mp hlen.symm)
    rw [parse_loop_spec llm_text products_db hcond hids]
    unfold fetchOutcome
    simp [hfm, hlen]

/-- C4: witness with four identifier occurrences — more than the
prompt's hint of three, and with p1 repeated three times — all kept. -/
theorem claim4_no_cap_no_dedup_witness :
    (parse_llm_product_ids_and_fetch ("p1,p2,p1,p1".data) demoCatalog).1.length =
        (tokenizeIds ("p1,p2,p1,p1".data)).length ∧
    (tokenizeIds ("p1,p2,p1,p1".data)).length = 4 :=
  ⟨(claim4_no_cap_no_dedup ("p1,p2,p1,p1".data) demoCatalog (by decide) (by decide)
      (by decide)).2, by decide⟩

/-- C5 (confirmed): the formatter of src/test/utils.py renders the empty
catalog as the fixed sentence; with no cap (the default) it emits one
line per catalog product joined by single newlines with no trailing
newline; a cap below the catalog size truncates earliest-first and a cap
at or above it keeps everything; each line has the shape
ID/Name/Description/Tags with the N/A placeholder for absent optional
id/name/description fields and the comma-joined (default empty) tags. -/
theorem claim5_formatter_shape :
    (∀ products_sample_size : Option Nat,
      format_products_for_llm [] products_sample_size =
        ("No product information available.".data)) ∧
    (∀ products_db : List ProductData, products_db ≠ [] →
      format_products_for_llm products_db none =
        List.intercalate ("\n".data) (products_db.map productLine)) ∧
    (∀ products_db : List ProductData, ∀ k : Nat, products_db ≠ [] →
      k < products_db.length →
      format_products_for_llm products_db (some k) =
        List.intercalate ("\n".data) ((products_db.take k).map productLine)) ∧
    (∀ products_db : List ProductData, ∀ k : Nat, products_db ≠ [] →
      products_db.length ≤ k →
      format_products_for_llm products_db (some k) =
        List.intercalate ("\n".data) (products_db.map productLine)) ∧
    (∀ p : ProductData, format_products_for_llm [p] none = productLine p) ∧
    (∀ p q : ProductData, format_products_for_llm [p, q] none =
      productLine p ++ ("\n".data) ++ productLine q) ∧
    (∀ i n d : Str, ∀ pr : Int, ∀ iu ca : Str, ∀ t : List Str,
      productLine ⟨some i, some n, some d, some pr, some iu, some ca, some t⟩ =
        ("ID: ".data) ++ i ++ (", Name: ".data) ++ n ++ (", Description: ".data) ++ d ++
          (", Tags: ".data) ++ List.intercalate (", ".data) t) ∧
    (productLine ⟨none, none, none, none, none, none, none⟩ =
      ("ID: N/A, Name: N/A, Description: N/A, Tags: ".data)) := by
  refine ⟨?_, ?_, ?_, ?_, ?_, ?_, ?_, ?_⟩
  · intro products_sample_size
    rfl
  · intro products_db h
    unfold format_products_for_llm sampleProducts
    rw [if_neg h]
  · intro products_db k h hk
    unfold format_products_for_llm
    rw [if_neg h]
    simp only [sampleProducts]
    rw [if_pos hk]
  · intro products_db k h hk
    unfold format_products_for_llm
    rw [if_neg h]
    simp only [sampleProducts]
    rw [if_neg (not_lt.mpr hk)]
  · intro p
    have h : ([p] : List ProductData) ≠ [] := by simp
    unfold format_products_for_llm sampleProducts
    rw [if_neg h]
    simp [List.intercalate]
  · intro p q
    have h : ([p, q] : List ProductData) ≠ [] := by simp
    unfold format_products_for_llm sampleProducts
    rw [if_neg h]
    simp [List.intercalate, List.intersperse]
  · intro i n d pr iu ca t
    rfl
  · rfl

/-- C5: witness applying the theorem to the demo catalog with the cap 1
and to the empty catalog. -/
theorem claim5_formatter_shape_witness :
    format_products_for_llm demoCatalog (some 1) =
      List.intercalate ("\n".data) ((demoCatalog.take 1).map productLine) ∧
    format_products_for_llm [] none = ("No product information available.".data) :=
  ⟨claim5_formatter_shape.2.2.1 demoCatalog 1 (by decide) (by decide),
   claim5_formatter_shape.1 none⟩

/-- C6 (confirmed): the Catalog Store loader load_products_from_file is a
total function that returns the parsed records on success and the empty
catalog on every failure — file not found, malformed JSON, or anything
else — so no load failure raises out of the loader or terminates
startup. -/
theorem claim6_loader_failures_yield_empty :
    (∀ e : LoadFailure, load_products_from_file (.error e) = []) ∧
    (∀ products : List ProductData, load_products_from_file (.ok products) = products) := by
  refine ⟨?_, ?_⟩
  · intro e
    cases e <;> rfl
  · intro products
    rfl

/-- A successful first gateway turn makes test_start_session store the
handle under the fresh id and return the greeting. -/
theorem test_start_session_ok (gw : Gateway) (session_chats : Registry) (session_id : String)
    (user_info : Option (List (Str × Str))) (greeting : Str)
    (h : gw [test_session_prompt user_info] = .ok greeting) :
    test_start_session gw session_chats session_id user_info =
      (dictSet session_chats session_id ⟨[test_session_prompt user_info]⟩,
       .ok (session_id, greeting)) := by
  unfold test_start_session
  rw [h]

/-- A failing first gateway turn makes test_start_session answer 500 and
leave the registry untouched. -/
theorem test_start_session_fail (gw : Gateway) (session_chats : Registry) (session_id : String)
    (user_info : Option (List (Str × Str)))
    (h : gw [test_session_prompt user_info] = .error ()) :
    test_start_session gw session_chats session_id user_info = (session_chats, .error 500) := by
  unfold test_start_session
  rw [h]

/-- Forwarding a message on a stored handle: the history grows by the
message and the gateway's reply is returned. -/
theorem chat_with_agent_found (gw : Gateway) (session_chats : Registry) (session_id : String)
    (message : Str) (cs : ChatSession) (reply : Str)
    (hget : dictGet session_chats session_id = some cs)
    (hgw : gw (cs.history ++ [message]) = .ok reply) :
    chat_with_agent gw session_chats session_id message =
      (dictSet session_chats session_id ⟨cs.history ++ [message]⟩, .ok reply) := by
  unfold chat_with_agent
  split
  · next heq =>
      rw [hget] at heq
      cases heq
  · next cs' heq =>
      rw [hget] at heq
      obtain rfl := Option.some.inj heq
      split
      · next r heq2 =>
          rw [hgw] at heq2
          obtain rfl := Except.ok.inj heq2
          rfl
      · next e heq2 =>
          rw [hgw] at heq2
          cases heq2

/-- C7 (confirmed): chatting with a session id absent from the registry
answers HTTP 404 and leaves the registry exactly as it was, while
chatting with the id stored by a successful start_session forwards the
message on that session's stored handle — the persona turn followed by
the new message — and returns the gateway's reply. -/
theorem claim7_chat_session_lookup (gw : Gateway) (session_chats : Registry)
    (session_id : String) (message : Str) :
    (dictGet session_chats session_id = none →
      chat_with_agent gw session_chats session_id message = (session_chats, .error 404)) ∧
    (∀ user_info : Option (List (Str × Str)), ∀ reg' : Registry, ∀ greeting reply : Str,
      test_start_session gw session_chats session_id user_info =
        (reg', .ok (session_id, greeting)) →
      gw [test_session_prompt user_info, message] = .ok reply →
      chat_with_agent gw reg' session_id message =
        (dictSet reg' session_id ⟨[test_session_prompt user_info, message]⟩, .ok reply)) := by
  constructor
  · intro h
    unfold chat_with_agent
    rw [h]
  · intro user_info reg' greeting reply hstart hgw
    cases hg : gw [test_session_prompt user_info] with
    | error e =>
        cases e
        rw [test_start_session_fail gw session_chats session_id user_info hg] at hstart
        exact absurd (congrArg Prod.snd hstart) (by simp)
    | ok g =>
        rw [test_start_session_ok gw session_chats session_id user_info g hg] at hstart
        have h1 : dictSet session_chats session_id ⟨[test_session_prompt user_info]⟩ = reg' :=
          congrArg Prod.fst hstart
        subst h1
        exact chat_with_agent_found gw _ session_id message
          ⟨[test_session_prompt user_info]⟩ reply
          (dictGet_dictSet session_chats session_id ⟨[test_session_prompt user_info]⟩) hgw

/-- C7: witness — a chat against the empty registry 404s without touching
it, and a chat with the id stored by a successful create returns the demo
gateway's second-turn reply. -/
theorem claim7_chat_session_lookup_witness :
    chat_with_agent gwDemo [] ("missing-id") ("hi".data) = ([], .error 404) ∧
    (chat_with_agent gwDemo
        (test_start_session gwDemo [] ("sid-1") none).1 ("sid-1") ("hi".data)).2 =
      .ok ("sure.".data) := by
  constructor
  · exact (claim7_chat_session_lookup gwDemo [] ("missing-id") ("hi".data)).1 rfl
  · have h := (claim7_chat_session_lookup gwDemo [] ("sid-1") ("hi".data)).2 none
      (dictSet [] ("sid-1") ⟨[test_session_prompt none]⟩) ("hello!".data) ("sure.".data)
      rfl rfl
    exact congrArg Prod.snd h

/-- C8 (confirmed): a text-recommendation request served while the
catalog is empty short-circuits to the 200 body with the empty
recommendation list and the apology message, and the gateway trace is
empty — no LLM call is made. -/
theorem claim8_empty_catalog_short_circuit (gw : OneShotGateway) (user_query : Str) :
    recommend_text_products gw [] user_query =
      (.ok ([], ("Rufus: I\x27m sorry, but our product catalog seems to be empty at the moment.".data)),
       []) := rfl

/-- C9 (confirmed): the descriptor substituted into the persona template
by backend start_session is the comma-joined key: value rendering of the
profile mapping, and is the literal `not specified` when the mapping is
empty or absent; the prompt issued as the session's first turn is the
template around exactly that descriptor. -/
theorem claim9_profile_descriptor (user_info : Option (List (Str × Str)))
    (gw : Gateway) (session_chats : Registry) (session_id : String) :
    backend_user_profile_str none = ("not specified".data) ∧
    backend_user_profile_str (some []) = ("not specified".data) ∧
    (∀ kv : Str × Str, ∀ kvs : List (Str × Str),
      backend_user_profile_str (some (kv :: kvs)) =
        List.intercalate (", ".data) ((kv :: kvs).map (fun e => e.1 ++ (": ".data) ++ e.2))) ∧
    (∀ greeting : Str,
      gw [renderPersona (backend_user_profile_str user_info)] = .ok greeting →
      backend_start_session gw session_chats session_id user_info =
        (dictSet session_chats session_id
          ⟨[renderPersona (backend_user_profile_str user_info)]⟩,
         .ok (session_id, greeting))) := by
  refine ⟨rfl, rfl, fun kv kvs => rfl, ?_⟩
  intro greeting h
  unfold backend_start_session backend_session_prompt
  rw [h]

/-- C9: witness — the empty profile mapping renders as `not specified`
inside the stored first turn. -/
theorem claim9_profile_descriptor_witness :
    backend_user_profile_str none = ("not specified".data) ∧
    backend_start_session gwDemo [] ("sid-2") (some []) =
      (dictSet [] ("sid-2") ⟨[renderPersona (("not specified".data))]⟩,
       .ok (("sid-2"), ("hello!".data))) :=
  ⟨(claim9_profile_descriptor none gwDemo [] ("sid-2")).1,
   (claim9_profile_descriptor (some []) gwDemo [] ("sid-2")).2.2.2 ("hello!".data) rfl⟩

/-- C10 (confirmed): start_session is atomic on error in both variants —
when the single LLM call of session creation fails, the endpoint answers
500 and the registry is unchanged, so no session id becomes usable; the
handle is stored under the fresh id only when the greeting arrives. -/
theorem claim10_start_session_atomic (gw : Gateway) (session_chats : Registry)
    (session_id : String) (user_info : Option (List (Str × Str))) :
    (gw [backend_session_prompt user_info] = .error () →
      backend_start_session gw session_chats session_id user_info =
        (session_chats, .error 500)) ∧
    (gw [test_session_prompt user_info] = .error () →
      test_start_session gw session_chats session_id user_info =
        (session_chats, .error 500)) ∧
    (∀ greeting : Str, gw [backend_session_prompt user_info] = .ok greeting →
      backend_start_session gw session_chats session_id user_info =
        (dictSet session_chats session_id ⟨[backend_session_prompt user_info]⟩,
         .ok (session_id, greeting))) ∧
    (∀ greeting : Str, gw [test_session_prompt user_info] = .ok greeting →
      test_start_session gw session_chats session_id user_info =
        (dictSet session_chats session_id ⟨[test_session_prompt user_info]⟩,
         .ok (session_id, greeting))) := by
  refine ⟨?_, ?_, ?_, ?_⟩
  · intro h
    unfold backend_start_session
    rw [h]
  · intro h
    unfold test_start_session
    rw [h]
  · intro greeting h
    unfold backend_start_session
    rw [h]
  · intro greeting h
    unfold test_start_session
    rw [h]

/-- C10: witness — with an always-failing gateway neither variant stores
anything in the empty registry. -/
theorem claim10_start_session_atomic_witness :
    backend_start_session gwFail [] ("sid-3") none = ([], .error 500) ∧
    test_start_session gwFail [] ("sid-3") none = ([], .error 500) :=
  ⟨(claim10_start_session_atomic gwFail [] ("sid-3") none).1 rfl,
   (claim10_start_session_atomic gwFail [] ("sid-3") none).2.1 rfl⟩

end CommerceAgent
